import Mathlib

set_option linter.all false

/-!
Shallow embedding of src/email_service.py (class EmailService): the SMTP
send path with its fallback chain, the TCP connectivity probe, the SendGrid
HTTP adapter and the SMTP-then-API orchestrator.  External effects
(sockets, the SMTP protocol, HTTP, the filesystem) are passed in as
explicit oracle functions, and every Python dict result is modelled as a
record with optional fields (absent dict key = none).
-/

/-- Python string-or-list runtime value.  Python is dynamically typed:
send_email_with_api_fallback passes a list where send_via_sendgrid_api
annotates str, so the embedding records which kind of value actually
flows into the adapter. -/
inductive PyStr
  | s (v : String)
  | listv (vs : List String)
  deriving DecidableEq

/-- Rendering of a PyStr inside an f-string (list rendering approximates
Python repr of a list). -/
def pyStrShow : PyStr → String
  | .s v => v
  | .listv vs => "[" ++ String.intercalate ", " vs ++ "]"

/-- Character-level check that the needle occurs contiguously at the head
of the haystack. -/
def charsStart : List Char → List Char → Bool
  | [], _ => true
  | _ :: _, [] => false
  | a :: as, b :: bs => a == b && charsStart as bs

/-- Character-level check that the needle occurs contiguously anywhere in
the haystack. -/
def charsContain (needle : List Char) : List Char → Bool
  | [] => needle.isEmpty
  | b :: bs => charsStart needle (b :: bs) || charsContain needle bs

/-- Python membership test needle in hay for strings. -/
def strContains (hay needle : String) : Bool :=
  charsContain needle.data hay.data

/-- Python str.lower. -/
def strLower (s : String) : String :=
  ⟨s.data.map Char.toLower⟩

/-- Python os.path.basename (POSIX flavour). -/
def basename (p : String) : String :=
  (p.splitOn "/").getLastD p

/-- Constructor arguments of EmailService (config.py / main.py wire these
from environment variables; an unset variable is modelled as ""). -/
structure EmailService where
  smtp_server : String
  smtp_port : Nat
  username : String
  password : String
  sender_email : String
  sender_name : String
  sendgrid_api_key : String
  deriving DecidableEq

/-- One SMTP candidate: the dicts in EmailService.fallback_configs. -/
structure SmtpConfig where
  server : String
  port : Nat
  ssl : Bool
  deriving DecidableEq

/-- EmailService.fallback_configs, in declared order. -/
def fallback_configs : List SmtpConfig :=
  [⟨"smtp.gmail.com", 587, false⟩,
   ⟨"smtp.gmail.com", 465, true⟩,
   ⟨"smtp-mail.outlook.com", 587, false⟩,
   ⟨"smtp.sendgrid.net", 587, false⟩]

/-- The f-string key server:port used both by test_connectivity and by
the success / fallback_used fields. -/
def configName (server : String) (port : Nat) : String :=
  server ++ ":" ++ toString port

/-- Arguments of send_email describing the message (Optional[List] = None
is behaviourally identical to [] in this code, so both are modelled as
the empty list). -/
structure Message where
  to_emails : List String
  subject : String
  body : String
  cc_emails : List String
  bcc_emails : List String
  attachments : List String
  is_html : Bool
  deriving DecidableEq

/-- Result dict of the service methods; every key that some branch sets is
an optional field here (sent_from / sent_to / sent_subject model the
sent_data sub-dict, solution_steps models the step_1..step_5 solution
dict, response_text models the response key). -/
structure EmailResult where
  status : String
  message : String
  recipients : Option Nat := none
  server_used : Option String := none
  fallback_used : Option String := none
  suggestion : Option String := none
  connectivity_test : Option (List (String × String × String)) := none
  error_type : Option String := none
  solution : Option String := none
  solution_steps : Option (List String) := none
  sendgrid_errors : Option (List String) := none
  response_code : Option Nat := none
  response_text : Option String := none
  details : Option String := none
  method : Option String := none
  recipient : Option PyStr := none
  sent_from : Option String := none
  sent_to : Option PyStr := none
  sent_subject : Option String := none
  deriving DecidableEq

/-- Outcome of the raw socket probe in _test_smtp_connection: the value of
socket.connect_ex, or the exception it raised. -/
inductive SocketProbe
  | connectResult (code : Int)
  | gaiError (msg : String)
  | raised (msg : String)
  deriving DecidableEq

/-- Socket-level oracle: behaviour of a TCP connect probe per host, port. -/
abbrev ProbeNet := String → Nat → SocketProbe

/-- Result dict of _test_smtp_connection: status and message. -/
def _test_smtp_connection (server : String) (port : Nat) (pn : ProbeNet) :
    String × String :=
  match pn server port with
  | .connectResult code =>
      if code = 0 then ("reachable", "Conexión exitosa")
      else ("unreachable", "Error de conexión: " ++ toString code)
  | .gaiError m => ("dns_error", "Error DNS: " ++ m)
  | .raised m => ("error", "Error: " ++ m)

/-- EmailService.test_connectivity: probes the current config first, then
every fallback config whose server:port key differs from the current
one; the Python dict is modelled as an association list in insertion
order (the keys are pairwise distinct). -/
def test_connectivity (svc : EmailService) (pn : ProbeNet) :
    List (String × String × String) :=
  let current := configName svc.smtp_server svc.smtp_port
  (current, _test_smtp_connection svc.smtp_server svc.smtp_port pn) ::
    ((fallback_configs.filter
        (fun c => configName c.server c.port != current)).map
      (fun c => (configName c.server c.port,
                 _test_smtp_connection c.server c.port pn)))

/-- Python exception flying out of the SMTP protocol steps, with the
instance checks the except-chain of _attempt_send_email performs:
is_auth = isinstance SMTPAuthenticationError, is_connect = isinstance
SMTPConnectError, is_os = isinstance OSError; msg models str(e). -/
structure PyExc where
  is_auth : Bool
  is_connect : Bool
  is_os : Bool
  msg : String
  deriving DecidableEq

/-- Protocol step inside the try-block of _attempt_send_email at which the
transport can raise. -/
inductive SmtpStep
  | connect
  | starttls
  | login
  | sendStep
  deriving DecidableEq

/-- SMTP-transport oracle: for each host, port and protocol step, either
the step succeeds (none) or raises the given exception. -/
abbrev SmtpWorld := String → Nat → SmtpStep → Option PyExc

/-- Observable transport events of one SMTP attempt, in order.  The code
calls server.quit() only on the line after sendmail, inside the
try-block, so quitCalled is emitted only when every step succeeded. -/
inductive SmtpEvent
  | connected
  | tlsUpgraded
  | loggedIn
  | sent
  | quitCalled
  deriving DecidableEq

/-- Straight-line run of the transport part of _attempt_send_email:
connect (SMTP_SSL or SMTP constructor), starttls only when not use_ssl,
login, sendmail, quit; stops at the first raising step.  Returns the
raised exception, if any, and the event trace. -/
def smtpProtocolRun (server : String) (port : Nat) (use_ssl : Bool)
    (w : SmtpWorld) : Option PyExc × List SmtpEvent :=
  match w server port SmtpStep.connect with
  | some e => (some e, [])
  | none =>
    let afterTls : Option PyExc × List SmtpEvent :=
      if use_ssl then (none, [SmtpEvent.connected])
      else
        match w server port SmtpStep.starttls with
        | some e => (some e, [SmtpEvent.connected])
        | none => (none, [SmtpEvent.connected, SmtpEvent.tlsUpgraded])
    match afterTls with
    | (some e, evs) => (some e, evs)
    | (none, evs) =>
      match w server port SmtpStep.login with
      | some e => (some e, evs)
      | none =>
        match w server port SmtpStep.sendStep with
        | some e => (some e, evs ++ [SmtpEvent.loggedIn])
        | none =>
            (none, evs ++ [SmtpEvent.loggedIn, SmtpEvent.sent,
                           SmtpEvent.quitCalled])

/-- Except-chain of _attempt_send_email, in source order:
SMTPAuthenticationError, then SMTPConnectError, then OSError (split on
whether str(e) contains "Network is unreachable"), then the bare
Exception handler. -/
def classifyResult (server : String) (port : Nat) (e : PyExc) : EmailResult :=
  if e.is_auth then
    { status := "auth_error",
      message := "Error de autenticación SMTP: " ++ e.msg }
  else if e.is_connect then
    { status := "connection_error",
      message := "Error de conexión SMTP a " ++ configName server port ++
        ": " ++ e.msg }
  else if e.is_os then
    if strContains e.msg "Network is unreachable" then
      { status := "network_unreachable",
        message := "Red no alcanzable para " ++ configName server port ++
          ". Railway podría estar bloqueando este puerto." }
    else
      { status := "network_error", message := "Error de red: " ++ e.msg }
  else
    { status := "error",
      message := "Error inesperado enviando email via " ++
        configName server port ++ ": " ++ e.msg }

/-- One MIME part attached to the multipart message: the body text part,
or one base64 attachment part per existing file (filename preserved in
the Content-Disposition header). -/
inductive MimePart
  | textPart (mimeType : String) (body : String)
  | filePart (filename : String)
  deriving DecidableEq

/-- Composed MIMEMultipart message: headers in insertion order and parts
in attach order. -/
structure MimeMessage where
  headers : List (String × String)
  parts : List MimePart
  deriving DecidableEq

/-- Message composition of _attempt_send_email: From, To and Subject
headers, a Cc header only when cc_emails is truthy, never a Bcc header;
then the body part and one part per attachment path that passes
os.path.isfile (fs is the filesystem oracle). -/
def composeMime (svc : EmailService) (msg : Message) (fs : String → Bool) :
    MimeMessage :=
  { headers :=
      [("From", svc.sender_name ++ " <" ++ svc.sender_email ++ ">"),
       ("To", String.intercalate ", " msg.to_emails),
       ("Subject", msg.subject)] ++
      (if msg.cc_emails.isEmpty then [] else
        [("Cc", String.intercalate ", " msg.cc_emails)]),
    parts :=
      MimePart.textPart (if msg.is_html then "html" else "plain") msg.body ::
      (msg.attachments.filter fs).map
        (fun p => MimePart.filePart (basename p)) }

/-- Recipient list built by _attempt_send_email: to_emails.copy() extended
with cc_emails and bcc_emails when truthy. -/
def all_recipients (msg : Message) : List String :=
  msg.to_emails ++ msg.cc_emails ++ msg.bcc_emails

/-- Full observable outcome of one _attempt_send_email call: the returned
dict, the composed message, the envelope handed to sendmail, and the
transport event trace. -/
structure AttemptOutcome where
  result : EmailResult
  mime : MimeMessage
  envelope : List String
  events : List SmtpEvent
  deriving DecidableEq

/-- EmailService._attempt_send_email: compose the message, run the
transport steps, return the success dict or the classified failure
dict.  No step after a raise runs, and quit is never reached on a
failure path (the code has no finally / context manager). -/
def _attempt_send_email (svc : EmailService) (server : String) (port : Nat)
    (use_ssl : Bool) (msg : Message) (fs : String → Bool) (w : SmtpWorld) :
    AttemptOutcome :=
  let mime := composeMime svc msg fs
  let recips := all_recipients msg
  match smtpProtocolRun server port use_ssl w with
  | (some e, evs) => ⟨classifyResult server port e, mime, recips, evs⟩
  | (none, evs) =>
      ⟨{ status := "success",
         message := "Email enviado exitosamente a " ++
           toString recips.length ++ " destinatarios",
         recipients := some recips.length,
         server_used := some (configName server port) }, mime, recips, evs⟩

/-- Skip test of the fallback loop: config is the primary when server and
port both match. -/
def isPrimaryDup (svc : EmailService) (c : SmtpConfig) : Bool :=
  c.server == svc.smtp_server && c.port == svc.smtp_port

/-- Final dict of send_email when every candidate failed: a fresh error
dict carrying the connectivity probe (the loop results are discarded). -/
def exhaustedResult (svc : EmailService) (pn : ProbeNet) : EmailResult :=
  { status := "error",
    message := "Todos los servidores SMTP fallaron. Considera usar SendGrid API.",
    suggestion := some "use_sendgrid_api",
    connectivity_test := some (test_connectivity svc pn) }

/-- Fallback loop of send_email over the remaining configs: skip the
primary duplicate, return the first success with fallback_used set,
otherwise fall through to the exhausted dict.  The second component is
the list of configs actually attempted, in order. -/
def tryFallbacks (svc : EmailService) (msg : Message) (fs : String → Bool)
    (w : SmtpWorld) (pn : ProbeNet) :
    List SmtpConfig → EmailResult × List SmtpConfig
  | [] => (exhaustedResult svc pn, [])
  | c :: rest =>
    if isPrimaryDup svc c then
      tryFallbacks svc msg fs w pn rest
    else if (_attempt_send_email svc c.server c.port c.ssl msg fs
              w).result.status == "success" then
      ({ (_attempt_send_email svc c.server c.port c.ssl msg fs w).result with
          fallback_used := some (configName c.server c.port) }, [c])
    else
      ((tryFallbacks svc msg fs w pn rest).1,
       c :: (tryFallbacks svc msg fs w pn rest).2)

/-- The primary candidate as a config value (the primary attempt is made
with use_ssl = False in the source). -/
def primaryConfig (svc : EmailService) : SmtpConfig :=
  ⟨svc.smtp_server, svc.smtp_port, false⟩

/-- EmailService.send_email: primary attempt first, early return on
success or when use_fallback is false, otherwise the fallback loop.
The second component is the list of configs attempted, in order. -/
def send_email (svc : EmailService) (msg : Message) (use_fallback : Bool)
    (fs : String → Bool) (w : SmtpWorld) (pn : ProbeNet) :
    EmailResult × List SmtpConfig :=
  let a := _attempt_send_email svc svc.smtp_server svc.smtp_port false msg fs w
  if a.result.status == "success" then (a.result, [primaryConfig svc])
  else if use_fallback then
    ((tryFallbacks svc msg fs w pn fallback_configs).1,
     primaryConfig svc :: (tryFallbacks svc msg fs w pn fallback_configs).2)
  else (a.result, [primaryConfig svc])

/-- One personalization block of the SendGrid v3 payload; each entry of
the to array is the value placed in its email field. -/
structure Personalization where
  to_entries : List PyStr
  deriving DecidableEq

/-- JSON payload built by send_via_sendgrid_api. -/
structure SendgridPayload where
  personalizations : List Personalization
  from_email : String
  from_name : String
  subject : String
  content_type : String
  content_value : String
  deriving DecidableEq

/-- HTTP-level oracle for the requests.post call: a response with a status
code, the parsed errors list of the JSON body (none when response.json()
or the errors extraction raises) and the raw text, or a raised
requests exception. -/
inductive HttpWorld
  | response (code : Nat) (bodyErrors : Option (List String)) (text : String)
  | connectionFailure (msg : String)
  | timeoutFailure (msg : String)
  | otherFailure (msg : String)
  deriving DecidableEq

/-- Observable outcome of one send_via_sendgrid_api call: the returned
dict, whether requests.post was reached, and the payload it was given. -/
structure ApiOutcome where
  result : EmailResult
  network_called : Bool
  payload_sent : Option SendgridPayload
  deriving DecidableEq

/-- Sender-identity test of the 403 branch: any error message whose
lowercase form contains "sender identity" or "from address". -/
def senderIdentityHit (m : String) : Bool :=
  strContains (strLower m) "sender identity" ||
  strContains (strLower m) "from address"

/-- Remediation checklist attached by the sender_not_verified branch
(step_1 .. step_5 of the solution dict). -/
def remediationSteps (svc : EmailService) : List String :=
  ["Ve a https://app.sendgrid.com/settings/sender_auth",
   "Click en \x27Verify a Single Sender\x27",
   "Verifica el email: " ++ svc.sender_email,
   "Revisa tu email y confirma la verificación",
   "Asegúrate de que EMAIL_FROM coincida exactamente con el email verificado"]

/-- EmailService.send_via_sendgrid_api: config preconditions before any
network call, then the payload build, the requests.post call and the
response-code dispatch. -/
def send_via_sendgrid_api (svc : EmailService) (to_email : PyStr)
    (subject : String) (body : String) (is_html : Bool) (hw : HttpWorld) :
    ApiOutcome :=
  if svc.sendgrid_api_key == "" then
    ⟨{ status := "error", error_type := some "config_missing",
       message := "SENDGRID_API_KEY no configurado. Configúralo en Railway para usar esta alternativa.",
       solution := some "Agrega SENDGRID_API_KEY en Railway → Settings → Variables" },
     false, none⟩
  else if svc.sender_email == "" then
    ⟨{ status := "error", error_type := some "sender_missing",
       message := "EMAIL_FROM no configurado",
       solution := some "Configura EMAIL_FROM en las variables de entorno" },
     false, none⟩
  else
    let content_type := if is_html then "text/html" else "text/plain"
    let data : SendgridPayload :=
      ⟨[⟨[to_email]⟩], svc.sender_email, svc.sender_name, subject,
       content_type, body⟩
    let res : EmailResult :=
      match hw with
      | .response 202 _ _ =>
          { status := "success",
            message := "Email enviado via SendGrid API a " ++
              pyStrShow to_email,
            method := some "sendgrid_api", recipient := some to_email }
      | .response 401 _ _ =>
          { status := "error", error_type := some "authentication",
            message := "API Key de SendGrid inválida",
            solution := some "Verifica que SENDGRID_API_KEY sea correcta en Railway" }
      | .response 403 bodyErrors text =>
          match bodyErrors with
          | some errs =>
            if errs.any senderIdentityHit then
              { status := "error", error_type := some "sender_not_verified",
                message := "El email " ++ svc.sender_email ++
                  " no está verificado en SendGrid",
                sendgrid_errors := some errs,
                solution_steps := some (remediationSteps svc) }
            else
              { status := "error", error_type := some "forbidden",
                message := "Acceso denegado por SendGrid",
                sendgrid_errors := some errs,
                response_code := some 403 }
          | none =>
              { status := "error", error_type := some "forbidden",
                message := "SendGrid API error 403: " ++ text,
                solution := some "Verifica la configuración de SendGrid Sender Authentication" }
      | .response 400 bodyErrors text =>
          match bodyErrors with
          | some errs =>
              { status := "error", error_type := some "bad_request",
                message := "Error en los datos enviados a SendGrid",
                sendgrid_errors := some errs,
                sent_from := some svc.sender_email,
                sent_to := some to_email,
                sent_subject := some subject }
          | none =>
              { status := "error", error_type := some "bad_request",
                message := "SendGrid API error 400: " ++ text }
      | .response code _ text =>
          { status := "error",
            error_type := some ("api_error_" ++ toString code),
            message := "SendGrid API error: " ++ toString code,
            response_text :=
              some (if text.length > 500 then text.take 500 else text) }
      | .connectionFailure m =>
          { status := "error", error_type := some "connection_error",
            message := "No se pudo conectar a SendGrid API",
            details := some m,
            solution := some "Verifica la conexión a internet desde Railway" }
      | .timeoutFailure m =>
          { status := "error", error_type := some "timeout",
            message := "Timeout conectando a SendGrid API",
            details := some m }
      | .otherFailure m =>
          { status := "error", error_type := some "unexpected_error",
            message := "Error inesperado con SendGrid API: " ++ m }
    ⟨res, true, some data⟩

/-- Observable outcome of send_email_with_api_fallback: the returned dict,
the SMTP configs attempted, and the SendGrid adapter calls made (each
with the to_email argument value and the adapter outcome). -/
structure FallbackOutcome where
  result : EmailResult
  smtp_trace : List SmtpConfig
  api_calls : List (PyStr × ApiOutcome)
  deriving DecidableEq

/-- EmailService.send_email_with_api_fallback: SMTP via send_email first
(use_fallback defaulted to True); on a non-success result, when
attachments, cc and bcc are all falsy, one call to
send_via_sendgrid_api — passing the whole to_emails list as its
to_email argument, exactly as the source does. -/
def send_email_with_api_fallback (svc : EmailService) (msg : Message)
    (fs : String → Bool) (w : SmtpWorld) (pn : ProbeNet) (hw : HttpWorld) :
    FallbackOutcome :=
  let r := send_email svc msg true fs w pn
  if r.1.status == "success" then ⟨r.1, r.2, []⟩
  else if msg.attachments.isEmpty && msg.cc_emails.isEmpty && msg.bcc_emails.isEmpty then
    let call := send_via_sendgrid_api svc (PyStr.listv msg.to_emails) msg.subject
      msg.body msg.is_html hw
    ⟨call.result, r.2, [(PyStr.listv msg.to_emails, call)]⟩
  else ⟨r.1, r.2, []⟩

/-! Concrete fixtures used by counterexamples and witnesses. -/

/-- Sample service whose primary differs from every fallback candidate. -/
def svcSample : EmailService :=
  ⟨"smtp.example.com", 25, "user", "pass", "from@example.com",
   "Email Sender", "SG.key"⟩

/-- Sample service with no SendGrid API key configured. -/
def svcNoKey : EmailService :=
  ⟨"smtp.example.com", 25, "user", "pass", "from@example.com",
   "Email Sender", ""⟩

/-- Sample service with an API key but no sender address configured. -/
def svcNoSender : EmailService :=
  ⟨"smtp.example.com", 25, "user", "pass", "", "Email Sender", "SG.key"⟩

/-- Simple message: one recipient, no cc, bcc or attachments. -/
def msgSimple : Message :=
  ⟨["a@b.com"], "Hi", "Body", [], [], [], false⟩

/-- Message carrying one attachment path. -/
def msgAttach : Message :=
  ⟨["a@b.com"], "Hi", "Body", [], [], ["report.pdf"], false⟩

/-- Message with cc and bcc recipients. -/
def msgFull : Message :=
  ⟨["a@b.com"], "Hi", "Body", ["c@x.com"], ["b@x.com"], [], false⟩

/-- Message whose attachments mix a missing and an existing path. -/
def msgGhost : Message :=
  ⟨["a@b.com"], "Hi", "Body", [], [], ["ghost.txt", "real.txt"], false⟩

/-- Filesystem on which every path exists. -/
def fsAll : String → Bool := fun _ => true

/-- Filesystem on which only real.txt exists. -/
def fsReal : String → Bool := fun p => p == "real.txt"

/-- SMTP world where every login raises an authentication rejection. -/
def wAuthFail : SmtpWorld := fun _ _ st =>
  if st = SmtpStep.login then some ⟨true, false, true, "535 auth failed"⟩
  else none

/-- SMTP world where every connection attempt raises SMTPConnectError. -/
def wConnectFail : SmtpWorld := fun _ _ st =>
  if st = SmtpStep.connect then some ⟨false, true, true, "refused"⟩
  else none

/-- SMTP world where every step of every attempt succeeds. -/
def wAllOk : SmtpWorld := fun _ _ _ => none

/-- SMTP world where only smtp.gmail.com:465 works. -/
def wOnly465 : SmtpWorld := fun s p _ =>
  if s == "smtp.gmail.com" && p == 465 then none
  else some ⟨false, true, true, "refused"⟩

/-- Probe network on which every TCP connect fails with errno 111. -/
def pnUnreach : ProbeNet := fun _ _ => .connectResult 111

/-- HTTP world answering 202 Accepted. -/
def hwOk : HttpWorld := .response 202 none ""

/-! Helper lemmas about the embedding. -/

/-- A non-nil list is not isEmpty. -/
theorem isEmpty_eq_false_of_ne_nil {α : Type} {l : List α} (h : l ≠ []) :
    l.isEmpty = false := by
  cases l with
  | nil => exact absurd rfl h
  | cons a t => rfl

/-- The composed message of an attempt is composeMime, whatever the
transport does. -/
theorem attempt_mime (svc : EmailService) (server : String) (port : Nat)
    (use_ssl : Bool) (msg : Message) (fs : String → Bool) (w : SmtpWorld) :
    (_attempt_send_email svc server port use_ssl msg fs w).mime =
      composeMime svc msg fs := by
  unfold _attempt_send_email
  rcases smtpProtocolRun server port use_ssl w with ⟨exc, evs⟩
  cases exc <;> rfl

/-- The envelope of an attempt is all_recipients, whatever the transport
does. -/
theorem attempt_envelope (svc : EmailService) (server : String) (port : Nat)
    (use_ssl : Bool) (msg : Message) (fs : String → Bool) (w : SmtpWorld) :
    (_attempt_send_email svc server port use_ssl msg fs w).envelope =
      all_recipients msg := by
  unfold _attempt_send_email
  rcases smtpProtocolRun server port use_ssl w with ⟨exc, evs⟩
  cases exc <;> rfl

/-- The returned dict of an attempt never depends on the filesystem. -/
theorem attempt_result_indep (svc : EmailService) (server : String)
    (port : Nat) (use_ssl : Bool) (msg : Message) (fs fs' : String → Bool)
    (w : SmtpWorld) :
    (_attempt_send_email svc server port use_ssl msg fs w).result =
      (_attempt_send_email svc server port use_ssl msg fs' w).result := by
  unfold _attempt_send_email
  rcases smtpProtocolRun server port use_ssl w with ⟨exc, evs⟩
  cases exc <;> rfl

/-- A fully working transport runs every step and ends with quit. -/
theorem smtpProtocolRun_ok (server : String) (port : Nat) (use_ssl : Bool)
    (w : SmtpWorld) (h : ∀ st, w server port st = none) :
    smtpProtocolRun server port use_ssl w =
      (none,
       if use_ssl then
         [SmtpEvent.connected, SmtpEvent.loggedIn, SmtpEvent.sent,
          SmtpEvent.quitCalled]
       else
         [SmtpEvent.connected, SmtpEvent.tlsUpgraded, SmtpEvent.loggedIn,
          SmtpEvent.sent, SmtpEvent.quitCalled]) := by
  unfold smtpProtocolRun
  rw [h SmtpStep.connect, h SmtpStep.starttls, h SmtpStep.login,
      h SmtpStep.sendStep]
  cases use_ssl <;> rfl

/-- A fully working transport makes the attempt return the success dict
with the recipient count and the server key. -/
theorem attempt_send_ok (svc : EmailService) (server : String) (port : Nat)
    (use_ssl : Bool) (msg : Message) (fs : String → Bool) (w : SmtpWorld)
    (h : ∀ st, w server port st = none) :
    (_attempt_send_email svc server port use_ssl msg fs w).result =
      { status := "success",
        message := "Email enviado exitosamente a " ++
          toString (all_recipients msg).length ++ " destinatarios",
        recipients := some (all_recipients msg).length,
        server_used := some (configName server port) } := by
  unfold _attempt_send_email
  rw [smtpProtocolRun_ok server port use_ssl w h]

/-- C6: the except-chain of _attempt_send_email classifies every failed
attempt by this priority: an authentication rejection gives auth_error;
a failure to establish the connection gives connection_error; an OS
error whose text contains "Network is unreachable" gives
network_unreachable; any other OS error gives network_error; anything
else gives error.  classifyResult is a function into the listed five
statuses, so one attempt yields exactly one status. -/
theorem c6_failure_classification (server : String) (port : Nat) (e : PyExc) :
    (e.is_auth = true → (classifyResult server port e).status = "auth_error") ∧
    (e.is_auth = false → e.is_connect = true →
      (classifyResult server port e).status = "connection_error") ∧
    (e.is_auth = false → e.is_connect = false → e.is_os = true →
      strContains e.msg "Network is unreachable" = true →
      (classifyResult server port e).status = "network_unreachable") ∧
    (e.is_auth = false → e.is_connect = false → e.is_os = true →
      strContains e.msg "Network is unreachable" = false →
      (classifyResult server port e).status = "network_error") ∧
    (e.is_auth = false → e.is_connect = false → e.is_os = false →
      (classifyResult server port e).status = "error") ∧
    ((classifyResult server port e).status = "auth_error" ∨
     (classifyResult server port e).status = "connection_error" ∨
     (classifyResult server port e).status = "network_unreachable" ∨
     (classifyResult server port e).status = "network_error" ∨
     (classifyResult server port e).status = "error") := by
  obtain ⟨a, c, o, m⟩ := e
  cases a <;> cases c <;> cases o <;>
    simp [classifyResult] <;>
    cases h : strContains m "Network is unreachable" <;> simp [h]

/-- C6 witness: at a concrete authentication rejection the classified
status is auth_error. -/
theorem c6_failure_classification_witness :
    (classifyResult "smtp.gmail.com" 587
      ⟨true, false, true, "535 bad credentials"⟩).status = "auth_error" :=
  (c6_failure_classification "smtp.gmail.com" 587
    ⟨true, false, true, "535 bad credentials"⟩).1 rfl

/-- C5: the message composed by an SMTP attempt never carries a Bcc
header — To (and Cc when present) are comma-joined header lines —
while the envelope handed to sendmail is exactly to ++ cc ++ bcc. -/
theorem c5_bcc_never_in_headers (svc : EmailService) (server : String)
    (port : Nat) (use_ssl : Bool) (msg : Message) (fs : String → Bool)
    (w : SmtpWorld) :
    (∀ h ∈ (_attempt_send_email svc server port use_ssl msg fs
              w).mime.headers, h.1 ≠ "Bcc") ∧
    ("To", String.intercalate ", " msg.to_emails) ∈
      (_attempt_send_email svc server port use_ssl msg fs w).mime.headers ∧
    (msg.cc_emails ≠ [] →
      ("Cc", String.intercalate ", " msg.cc_emails) ∈
        (_attempt_send_email svc server port use_ssl msg fs w).mime.headers) ∧
    (_attempt_send_email svc server port use_ssl msg fs w).envelope =
      msg.to_emails ++ msg.cc_emails ++ msg.bcc_emails := by
  rw [attempt_mime, attempt_envelope]
  refine ⟨?_, ?_, ?_, rfl⟩
  · intro h hh
    cases hcc : msg.cc_emails.isEmpty <;>
      simp [composeMime, hcc] at hh <;>
      rcases hh with rfl | rfl | rfl | rfl <;> simp
  · simp [composeMime]
  · intro hcc
    simp [composeMime, isEmpty_eq_false_of_ne_nil hcc]

/-- C5 witness: at a concrete message with cc and bcc, the Cc header is
present and the envelope is the full concatenation. -/
theorem c5_bcc_never_in_headers_witness :
    ("Cc", String.intercalate ", " ["c@x.com"]) ∈
      (_attempt_send_email svcSample "smtp.example.com" 25 false msgFull
        fsAll wAllOk).mime.headers ∧
    (_attempt_send_email svcSample "smtp.example.com" 25 false msgFull
      fsAll wAllOk).envelope = ["a@b.com"] ++ ["c@x.com"] ++ ["b@x.com"] :=
  ⟨(c5_bcc_never_in_headers svcSample "smtp.example.com" 25 false msgFull
      fsAll wAllOk).2.2.1 (by decide),
   (c5_bcc_never_in_headers svcSample "smtp.example.com" 25 false msgFull
      fsAll wAllOk).2.2.2⟩

/-- C9 is violated by the code: _attempt_send_email has no finally block
and no context manager, so on the exit path where login raises after
the connection was established the attempt returns the classified
failure while the connection is left open — the trace shows the
connection opened, the failure classified auth_error, and no quit. -/
theorem c9_code_bug_connection_leaked :
    SmtpEvent.connected ∈
      (_attempt_send_email svcSample "smtp.gmail.com" 587 false msgSimple
        fsAll wAuthFail).events ∧
    SmtpEvent.quitCalled ∉
      (_attempt_send_email svcSample "smtp.gmail.com" 587 false msgSimple
        fsAll wAuthFail).events ∧
    (_attempt_send_email svcSample "smtp.gmail.com" 587 false msgSimple
      fsAll wAuthFail).result.status = "auth_error" := by
  decide

/-- C10: an attachments path that the filesystem does not report as an
existing file is silently dropped: the returned dict of the attempt is
the same under every filesystem, a fully working transport still
returns success, and every attachment part of the composed message
comes from a path that does exist. -/
theorem c10_missing_attachment_skipped (svc : EmailService) (server : String)
    (port : Nat) (use_ssl : Bool) (msg : Message) (fs fs' : String → Bool)
    (w : SmtpWorld) (p : String) (hp : p ∈ msg.attachments)
    (hmiss : fs p = false) :
    ((_attempt_send_email svc server port use_ssl msg fs w).result =
      (_attempt_send_email svc server port use_ssl msg fs' w).result) ∧
    ((∀ st, w server port st = none) →
      (_attempt_send_email svc server port use_ssl msg fs w).result.status =
        "success") ∧
    (∀ part ∈ (_attempt_send_email svc server port use_ssl msg fs
        w).mime.parts,
      (∃ mt b, part = MimePart.textPart mt b) ∨
      ∃ q ∈ msg.attachments, fs q = true ∧
        part = MimePart.filePart (basename q)) := by
  refine ⟨attempt_result_indep svc server port use_ssl msg fs fs' w,
    fun h => by rw [attempt_send_ok svc server port use_ssl msg fs w h],
    ?_⟩
  intro part hpart
  rw [attempt_mime] at hpart
  simp [composeMime, List.mem_filter] at hpart
  rcases hpart with rfl | ⟨q, ⟨hq, hfsq⟩, rfl⟩
  · exact Or.inl ⟨_, _, rfl⟩
  · exact Or.inr ⟨q, hq, hfsq, rfl⟩

/-- C10 witness: at a message with a missing and an existing attachment,
the result is unchanged when the filesystem loses every file, and the
attempt still succeeds. -/
theorem c10_missing_attachment_skipped_witness :
    ((_attempt_send_email svcSample "smtp.example.com" 25 false msgGhost
        fsReal wAllOk).result =
      (_attempt_send_email svcSample "smtp.example.com" 25 false msgGhost
        (fun _ => false) wAllOk).result) ∧
    (_attempt_send_email svcSample "smtp.example.com" 25 false msgGhost
      fsReal wAllOk).result.status = "success" :=
  ⟨(c10_missing_attachment_skipped svcSample "smtp.example.com" 25 false
      msgGhost fsReal (fun _ => false) wAllOk "ghost.txt" (by decide)
      (by decide)).1,
   (c10_missing_attachment_skipped svcSample "smtp.example.com" 25 false
      msgGhost fsReal (fun _ => false) wAllOk "ghost.txt" (by decide)
      (by decide)).2.1 (fun st => rfl)⟩

/-- C7 counterexample: with no API key configured the adapter returns a
dict whose status field is the generic "error" — the config_missing
classification lives in the separate error_type field — so the claim
that the outcome status is config_missing is false at this input (no
network call is made, as the claim also says). -/
theorem c7_counterexample_status_is_generic_error :
    (send_via_sendgrid_api svcNoKey (PyStr.s "a@b.com") "Hi" "Body" false
      hwOk).result.status = "error" ∧
    (send_via_sendgrid_api svcNoKey (PyStr.s "a@b.com") "Hi" "Body" false
      hwOk).result.status ≠ "config_missing" ∧
    (send_via_sendgrid_api svcNoKey (PyStr.s "a@b.com") "Hi" "Body" false
      hwOk).result.error_type = some "config_missing" ∧
    (send_via_sendgrid_api svcNoKey (PyStr.s "a@b.com") "Hi" "Body" false
      hwOk).network_called = false := by
  decide

/-- C7 amended: with no API key configured the adapter returns the
config_missing classification in its error_type field (the status field
is the generic "error") without making any network call; with a key but
no sender address it likewise returns the sender_missing classification
without any network call. -/
theorem c7_amended_preconditions (svc : EmailService) (to_email : PyStr)
    (subject body : String) (is_html : Bool) (hw : HttpWorld) :
    (svc.sendgrid_api_key = "" →
      (send_via_sendgrid_api svc to_email subject body is_html
        hw).result.error_type = some "config_missing" ∧
      (send_via_sendgrid_api svc to_email subject body is_html
        hw).result.status = "error" ∧
      (send_via_sendgrid_api svc to_email subject body is_html
        hw).network_called = false ∧
      (send_via_sendgrid_api svc to_email subject body is_html
        hw).payload_sent = none) ∧
    (svc.sendgrid_api_key ≠ "" → svc.sender_email = "" →
      (send_via_sendgrid_api svc to_email subject body is_html
        hw).result.error_type = some "sender_missing" ∧
      (send_via_sendgrid_api svc to_email subject body is_html
        hw).result.status = "error" ∧
      (send_via_sendgrid_api svc to_email subject body is_html
        hw).network_called = false ∧
      (send_via_sendgrid_api svc to_email subject body is_html
        hw).payload_sent = none) := by
  constructor
  · intro hk
    simp [send_via_sendgrid_api, hk]
  · intro hk hs
    have hkb : (svc.sendgrid_api_key == "") = false := by
      simpa using hk
    simp [send_via_sendgrid_api, hkb, hs]

/-- C7 witness for the amended claim at concrete services. -/
theorem c7_amended_preconditions_witness :
    (send_via_sendgrid_api svcNoKey (PyStr.s "a@b.com") "Hi" "Body" false
      hwOk).result.error_type = some "config_missing" ∧
    (send_via_sendgrid_api svcNoSender (PyStr.s "a@b.com") "Hi" "Body" false
      hwOk).result.error_type = some "sender_missing" :=
  ⟨((c7_amended_preconditions svcNoKey (PyStr.s "a@b.com") "Hi" "Body" false
      hwOk).1 rfl).1,
   ((c7_amended_preconditions svcNoSender (PyStr.s "a@b.com") "Hi" "Body"
      false hwOk).2 (by decide) rfl).1⟩

/-- C8: on a 403 response the adapter inspects the parsed structured
errors list; when some error message mentions the sender identity or
the from address (the lowercase substring test of the source) it
classifies the outcome sender_not_verified — recorded in error_type —
and attaches the remediation checklist; otherwise it classifies it
forbidden with no checklist. -/
theorem c8_forbidden_classification (svc : EmailService) (to_email : PyStr)
    (subject body : String) (is_html : Bool) (errs : List String)
    (text : String) (hk : svc.sendgrid_api_key ≠ "")
    (hs : svc.sender_email ≠ "") :
    (errs.any senderIdentityHit = true →
      (send_via_sendgrid_api svc to_email subject body is_html
        (HttpWorld.response 403 (some errs) text)).result.error_type =
          some "sender_not_verified" ∧
      (send_via_sendgrid_api svc to_email subject body is_html
        (HttpWorld.response 403 (some errs) text)).result.solution_steps =
          some (remediationSteps svc) ∧
      (send_via_sendgrid_api svc to_email subject body is_html
        (HttpWorld.response 403 (some errs) text)).result.sendgrid_errors =
          some errs) ∧
    (errs.any senderIdentityHit = false →
      (send_via_sendgrid_api svc to_email subject body is_html
        (HttpWorld.response 403 (some errs) text)).result.error_type =
          some "forbidden" ∧
      (send_via_sendgrid_api svc to_email subject body is_html
        (HttpWorld.response 403 (some errs) text)).result.solution_steps =
          none ∧
      (send_via_sendgrid_api svc to_email subject body is_html
        (HttpWorld.response 403 (some errs) text)).result.sendgrid_errors =
          some errs) := by
  have hkb : (svc.sendgrid_api_key == "") = false := by simpa using hk
  have hsb : (svc.sender_email == "") = false := by simpa using hs
  constructor
  · intro hany
    simp [send_via_sendgrid_api, hkb, hsb, hany]
  · intro hany
    simp [send_via_sendgrid_api, hkb, hsb, hany]

/-- C8 witness: a 403 body mentioning the from address classifies
sender_not_verified with the checklist; a 403 with an unrelated error
classifies forbidden. -/
theorem c8_forbidden_classification_witness :
    (send_via_sendgrid_api svcSample (PyStr.s "a@b.com") "Hi" "Body" false
      (HttpWorld.response 403
        (some ["The from address does not match a verified Sender Identity"])
        "")).result.error_type = some "sender_not_verified" ∧
    (send_via_sendgrid_api svcSample (PyStr.s "a@b.com") "Hi" "Body" false
      (HttpWorld.response 403 (some ["rate limit exceeded"])
        "")).result.error_type = some "forbidden" :=
  ⟨((c8_forbidden_classification svcSample (PyStr.s "a@b.com") "Hi" "Body"
      false ["The from address does not match a verified Sender Identity"]
      "" (by decide) (by decide)).1 (by decide)).1,
   ((c8_forbidden_classification svcSample (PyStr.s "a@b.com") "Hi" "Body"
      false ["rate limit exceeded"] "" (by decide) (by decide)).2
      (by decide)).1⟩

/-- C1 is violated by the code: when every SMTP candidate fails on a
message with no attachments, cc or bcc, send_email_with_api_fallback
does invoke the provider adapter exactly once and the payload does hold
exactly one personalization block with a single recipient entry — but
line 410 passes the entire to_emails list as the adapter's to_email
argument (whose annotation is str), so the recipient value placed in
the payload is the whole list, not the first address to_emails[0]. -/
theorem c1_code_bug_recipient_is_whole_list :
    ((send_email_with_api_fallback svcSample msgSimple fsAll wConnectFail
        pnUnreach hwOk).api_calls.map (fun call => call.2.payload_sent)) =
      [some { personalizations := [⟨[PyStr.listv ["a@b.com"]]⟩],
              from_email := "from@example.com",
              from_name := "Email Sender",
              subject := "Hi",
              content_type := "text/plain",
              content_value := "Body" }] ∧
    PyStr.listv ["a@b.com"] ≠ PyStr.s "a@b.com" := by
  decide

/-- C4: when the primary SMTP attempt succeeds, send_email returns
immediately with status success, a recipient count of
|to| + |cc| + |bcc|, server_used the primary host:port, no
fallback_used key, and no fallback candidate attempted. -/
theorem c4_primary_success (svc : EmailService) (msg : Message)
    (use_fallback : Bool) (fs : String → Bool) (w : SmtpWorld)
    (pn : ProbeNet) (hto : msg.to_emails ≠ [])
    (hok : ∀ st, w svc.smtp_server svc.smtp_port st = none) :
    send_email svc msg use_fallback fs w pn =
      ({ status := "success",
         message := "Email enviado exitosamente a " ++
           toString (msg.to_emails.length + msg.cc_emails.length +
             msg.bcc_emails.length) ++ " destinatarios",
         recipients := some (msg.to_emails.length + msg.cc_emails.length +
           msg.bcc_emails.length),
         server_used := some (configName svc.smtp_server svc.smtp_port) },
       [primaryConfig svc]) := by
  have h := attempt_send_ok svc svc.smtp_server svc.smtp_port false msg fs
    w hok
  have hlen : (all_recipients msg).length =
      msg.to_emails.length + msg.cc_emails.length + msg.bcc_emails.length := by
    simp only [all_recipients, List.length_append]
  simp only [send_email, h, hlen]
  simp

/-- C4 witness: at a concrete message with cc and bcc and a fully working
primary, send_email returns the success dict with 3 recipients. -/
theorem c4_primary_success_witness :
    send_email svcSample msgFull true fsAll wAllOk pnUnreach =
      ({ status := "success",
         message := "Email enviado exitosamente a 3 destinatarios",
         recipients := some 3,
         server_used := some "smtp.example.com:25" },
       [primaryConfig svcSample]) :=
  c4_primary_success svcSample msgFull true fsAll wAllOk pnUnreach
    (by decide) (fun st => rfl)

/-- Fallback loop, first-success case: when the declared chain with
primary duplicates filtered out splits as pre ++ c :: post, every
candidate of pre fails and c succeeds, the loop returns the success
dict of c tagged with fallback_used and attempts exactly pre ++ [c]. -/
theorem tryFallbacks_first_success (svc : EmailService) (msg : Message)
    (fs : String → Bool) (w : SmtpWorld) (pn : ProbeNet)
    (l : List SmtpConfig) :
    ∀ (pre post : List SmtpConfig) (c : SmtpConfig),
      l.filter (fun d => !isPrimaryDup svc d) = pre ++ c :: post →
      (∀ d ∈ pre,
        (_attempt_send_email svc d.server d.port d.ssl msg fs
          w).result.status ≠ "success") →
      (_attempt_send_email svc c.server c.port c.ssl msg fs
        w).result.status = "success" →
      tryFallbacks svc msg fs w pn l =
        ({ (_attempt_send_email svc c.server c.port c.ssl msg fs
              w).result with
            fallback_used := some (configName c.server c.port) },
         pre ++ [c]) := by
  induction l with
  | nil =>
    intro pre post c hfilt hpre hc
    simp at hfilt
  | cons a rest ih =>
    intro pre post c hfilt hpre hc
    rw [List.filter_cons] at hfilt
    cases hd : isPrimaryDup svc a with
    | true =>
      simp [hd] at hfilt
      simp only [tryFallbacks]
      simp only [hd, if_true]
      exact ih pre post c hfilt hpre hc
    | false =>
      simp [hd] at hfilt
      cases pre with
      | nil =>
        simp at hfilt
        obtain ⟨rfl, hpost⟩ := hfilt
        simp only [tryFallbacks]
        simp [hd, hc]
      | cons p pre' =>
        simp at hfilt
        obtain ⟨rfl, hrest⟩ := hfilt
        have hfa := hpre a (List.mem_cons_self a pre')
        have hfab : ((_attempt_send_email svc a.server a.port a.ssl msg fs
            w).result.status == "success") = false := by
          simpa using hfa
        simp only [tryFallbacks]
        simp only [hd, hfab, Bool.false_eq_true, if_false]
        rw [ih pre' post c hrest
          (fun d hdm => hpre d (List.mem_cons_of_mem _ hdm)) hc]
        rfl

/-- C3: after a primary failure with use_fallback, send_email walks the
declared fallback chain in its fixed order, skipping every candidate
whose host and port equal the primary; the first succeeding candidate
is returned immediately with fallback_used set to its host:port, and
no later candidate is attempted — the attempt trace is exactly the
primary followed by the failing filtered candidates and the winner. -/
theorem c3_fallback_order_short_circuit (svc : EmailService) (msg : Message)
    (fs : String → Bool) (w : SmtpWorld) (pn : ProbeNet)
    (pre post : List SmtpConfig) (c : SmtpConfig)
    (hprim : (_attempt_send_email svc svc.smtp_server svc.smtp_port false
      msg fs w).result.status ≠ "success")
    (hfilt : fallback_configs.filter (fun d => !isPrimaryDup svc d) =
      pre ++ c :: post)
    (hpre : ∀ d ∈ pre, (_attempt_send_email svc d.server d.port d.ssl msg
      fs w).result.status ≠ "success")
    (hc : (_attempt_send_email svc c.server c.port c.ssl msg fs
      w).result.status = "success") :
    send_email svc msg true fs w pn =
      ({ (_attempt_send_email svc c.server c.port c.ssl msg fs w).result
          with fallback_used := some (configName c.server c.port) },
       primaryConfig svc :: (pre ++ [c])) := by
  have hrec := tryFallbacks_first_success svc msg fs w pn fallback_configs
    pre post c hfilt hpre hc
  have hprimb : ((_attempt_send_email svc svc.smtp_server svc.smtp_port
      false msg fs w).result.status == "success") = false := by
    simpa using hprim
  simp only [send_email, hprimb, Bool.false_eq_true, if_false, if_true]
  rw [hrec]

/-- C3 witness: with a distinct primary that fails, the first fallback
failing and smtp.gmail.com:465 succeeding, send_email returns that
success tagged fallback_used after attempting exactly the primary, the
first fallback and the winner. -/
theorem c3_fallback_order_short_circuit_witness :
    send_email svcSample msgSimple true fsAll wOnly465 pnUnreach =
      ({ (_attempt_send_email svcSample "smtp.gmail.com" 465 true msgSimple
            fsAll wOnly465).result
          with fallback_used := some (configName "smtp.gmail.com" 465) },
       primaryConfig svcSample ::
         ([⟨"smtp.gmail.com", 587, false⟩] ++ [⟨"smtp.gmail.com", 465, true⟩])) :=
  c3_fallback_order_short_circuit svcSample msgSimple fsAll wOnly465
    pnUnreach [⟨"smtp.gmail.com", 587, false⟩]
    [⟨"smtp-mail.outlook.com", 587, false⟩, ⟨"smtp.sendgrid.net", 587, false⟩]
    ⟨"smtp.gmail.com", 465, true⟩ (by decide) (by decide) (by decide)
    (by decide)

/-- Fallback loop, exhaustion case: when every candidate fails, the loop
returns the fresh exhausted dict and attempts exactly the filtered
chain. -/
theorem tryFallbacks_all_fail (svc : EmailService) (msg : Message)
    (fs : String → Bool) (w : SmtpWorld) (pn : ProbeNet)
    (l : List SmtpConfig)
    (h : ∀ c ∈ l, (_attempt_send_email svc c.server c.port c.ssl msg fs
      w).result.status ≠ "success") :
    tryFallbacks svc msg fs w pn l =
      (exhaustedResult svc pn, l.filter (fun d => !isPrimaryDup svc d)) := by
  induction l with
  | nil => rfl
  | cons a rest ih =>
    have hfa : ((_attempt_send_email svc a.server a.port a.ssl msg fs
        w).result.status == "success") = false := by
      simpa using h a (List.mem_cons_self a rest)
    have ihr := ih (fun c hc => h c (List.mem_cons_of_mem _ hc))
    cases hd : isPrimaryDup svc a with
    | true =>
      simp only [tryFallbacks, hd, if_true, List.filter_cons]
      simp [ihr]
    | false =>
      simp only [tryFallbacks, hd, Bool.false_eq_true, if_false, hfa,
        List.filter_cons]
      simp [ihr]

/-- When the primary and every fallback candidate fail, send_email returns
the exhausted dict after attempting the primary and the whole filtered
chain. -/
theorem send_email_exhausted (svc : EmailService) (msg : Message)
    (fs : String → Bool) (w : SmtpWorld) (pn : ProbeNet)
    (hprim : (_attempt_send_email svc svc.smtp_server svc.smtp_port false
      msg fs w).result.status ≠ "success")
    (hall : ∀ c ∈ fallback_configs, (_attempt_send_email svc c.server
      c.port c.ssl msg fs w).result.status ≠ "success") :
    send_email svc msg true fs w pn =
      (exhaustedResult svc pn,
       primaryConfig svc ::
         fallback_configs.filter (fun d => !isPrimaryDup svc d)) := by
  have hprimb : ((_attempt_send_email svc svc.smtp_server svc.smtp_port
      false msg fs w).result.status == "success") = false := by
    simpa using hprim
  simp only [send_email, hprimb, Bool.false_eq_true, if_false, if_true]
  rw [tryFallbacks_all_fail svc msg fs w pn fallback_configs hall]

/-- Every probe result status is one of the four tags. -/
theorem _test_smtp_connection_status (server : String) (port : Nat)
    (pn : ProbeNet) :
    (_test_smtp_connection server port pn).1 = "reachable" ∨
    (_test_smtp_connection server port pn).1 = "unreachable" ∨
    (_test_smtp_connection server port pn).1 = "dns_error" ∨
    (_test_smtp_connection server port pn).1 = "error" := by
  unfold _test_smtp_connection
  cases pn server port with
  | connectResult code => by_cases h : code = 0 <;> simp [h]
  | gaiError m => simp
  | raised m => simp

/-- Every entry of the connectivity diagnostic is tagged with one of the
four probe statuses. -/
theorem test_connectivity_entry_status (svc : EmailService) (pn : ProbeNet) :
    ∀ entry ∈ test_connectivity svc pn,
      entry.2.1 = "reachable" ∨ entry.2.1 = "unreachable" ∨
      entry.2.1 = "dns_error" ∨ entry.2.1 = "error" := by
  intro entry he
  simp only [test_connectivity] at he
  rcases List.mem_cons.mp he with h1 | h2
  · rw [h1]
    exact _test_smtp_connection_status _ _ pn
  · obtain ⟨c, hc, rfl⟩ := List.mem_map.mp h2
    exact _test_smtp_connection_status _ _ pn

/-- The keys of the connectivity diagnostic cover the primary and every
fallback host:port. -/
theorem test_connectivity_covers (svc : EmailService) (pn : ProbeNet) :
    configName svc.smtp_server svc.smtp_port ∈
      (test_connectivity svc pn).map Prod.fst ∧
    ∀ c ∈ fallback_configs, configName c.server c.port ∈
      (test_connectivity svc pn).map Prod.fst := by
  constructor
  · simp [test_connectivity]
  · intro c hc
    by_cases h : configName c.server c.port =
        configName svc.smtp_server svc.smtp_port
    · simp [test_connectivity, h]
    · simp only [test_connectivity, List.map_cons, List.mem_cons,
        List.map_map]
      right
      refine List.mem_map.mpr ⟨c, List.mem_filter.mpr ⟨hc, ?_⟩, rfl⟩
      simpa using h

/-- C2 counterexample: with a message carrying an attachment and every
SMTP candidate failing with an authentication rejection, the outcome
status of the chain is the generic "error", not the auth_error status
of the last SMTP failure (smtp.sendgrid.net:587 is the last attempted
candidate); the provider adapter is indeed never invoked. -/
theorem c2_counterexample_last_status_discarded :
    (_attempt_send_email svcSample "smtp.sendgrid.net" 587 false msgAttach
      fsAll wAuthFail).result.status = "auth_error" ∧
    (send_email_with_api_fallback svcSample msgAttach fsAll wAuthFail
      pnUnreach hwOk).result.status = "error" ∧
    ("error" : String) ≠ "auth_error" ∧
    (send_email_with_api_fallback svcSample msgAttach fsAll wAuthFail
      pnUnreach hwOk).api_calls = [] := by
  decide

/-- C2 amended: for a message with an attachment or a non-empty cc or
bcc, when the primary and every fallback SMTP candidate fail, the
provider adapter is never invoked and the returned outcome is the fixed
catch-all: status "error" with the fixed message (whatever status the
last SMTP failure had), carrying a connectivity-probe diagnostic whose
keys cover the primary and every fallback host:port and whose entries
are each tagged reachable, unreachable, dns_error or error. -/
theorem c2_amended_attachments_block_api (svc : EmailService)
    (msg : Message) (fs : String → Bool) (w : SmtpWorld) (pn : ProbeNet)
    (hw : HttpWorld)
    (hinelig : msg.attachments ≠ [] ∨ msg.cc_emails ≠ [] ∨
      msg.bcc_emails ≠ [])
    (hprim : (_attempt_send_email svc svc.smtp_server svc.smtp_port false
      msg fs w).result.status ≠ "success")
    (hall : ∀ c ∈ fallback_configs, (_attempt_send_email svc c.server
      c.port c.ssl msg fs w).result.status ≠ "success") :
    (send_email_with_api_fallback svc msg fs w pn hw).api_calls = [] ∧
    (send_email_with_api_fallback svc msg fs w pn hw).result.status =
      "error" ∧
    (send_email_with_api_fallback svc msg fs w pn hw).result.message =
      "Todos los servidores SMTP fallaron. Considera usar SendGrid API." ∧
    (send_email_with_api_fallback svc msg fs w pn
      hw).result.connectivity_test = some (test_connectivity svc pn) ∧
    configName svc.smtp_server svc.smtp_port ∈
      (test_connectivity svc pn).map Prod.fst ∧
    (∀ c ∈ fallback_configs, configName c.server c.port ∈
      (test_connectivity svc pn).map Prod.fst) ∧
    (∀ entry ∈ test_connectivity svc pn,
      entry.2.1 = "reachable" ∨ entry.2.1 = "unreachable" ∨
      entry.2.1 = "dns_error" ∨ entry.2.1 = "error") := by
  have hse := send_email_exhausted svc msg fs w pn hprim hall
  have hout : send_email_with_api_fallback svc msg fs w pn hw =
      ⟨exhaustedResult svc pn,
       primaryConfig svc ::
         fallback_configs.filter (fun d => !isPrimaryDup svc d), []⟩ := by
    simp [send_email_with_api_fallback, hse, exhaustedResult]
    intro ha hcc
    rcases hinelig with h | h | h
    · exact absurd ha h
    · exact absurd hcc h
    · exact h
  rw [hout]
  exact ⟨rfl, rfl, rfl, rfl, (test_connectivity_covers svc pn).1,
    (test_connectivity_covers svc pn).2, test_connectivity_entry_status svc pn⟩

/-- C2 witness: the amended claim at the concrete all-fail fixture. -/
theorem c2_amended_attachments_block_api_witness :
    (send_email_with_api_fallback svcSample msgAttach fsAll wAuthFail
      pnUnreach hwOk).api_calls = [] ∧
    (send_email_with_api_fallback svcSample msgAttach fsAll wAuthFail
      pnUnreach hwOk).result.status = "error" ∧
    (send_email_with_api_fallback svcSample msgAttach fsAll wAuthFail
      pnUnreach hwOk).result.connectivity_test =
      some (test_connectivity svcSample pnUnreach) :=
  ⟨(c2_amended_attachments_block_api svcSample msgAttach fsAll wAuthFail
      pnUnreach hwOk (Or.inl (by decide)) (by decide) (by decide)).1,
   (c2_amended_attachments_block_api svcSample msgAttach fsAll wAuthFail
      pnUnreach hwOk (Or.inl (by decide)) (by decide) (by decide)).2.1,
   (c2_amended_attachments_block_api svcSample msgAttach fsAll wAuthFail
      pnUnreach hwOk (Or.inl (by decide)) (by decide) (by decide)).2.2.2.1⟩
